import Mathlib

/-!
Verification development for the signaling-and-reconnection core of a
WebRTC 3D-streaming demo (one publisher, many receivers, Socket.IO
signaling server).  The definitions below are a shallow embedding of the
JavaScript sources:

- rendezvous server: server/index.js (room registry plus blind relay);
- publisher endpoint: publisher/main.js, the auto-reconnect variant
  (the one with createPeerAndNegotiate and the pendingNegotiate flag);
- receiver endpoint: receiver/main.js.

External browser API semantics that the embedding relies on:
- setRemoteDescription with an answer succeeds exactly when the
  connection holds a local offer and no remote description yet
  (signaling state have-local-offer); otherwise it rejects, and the
  source code catches and logs the rejection.
- addIceCandidate succeeds exactly when a remote description is set;
  otherwise it rejects and the source catches and logs it, dropping
  the candidate.

Each successive RTCPeerConnection object created by an endpoint is
identified here by a natural-number tag called gen (object identity of
the successive connection objects); no handler in the source branches
on it, it only lets the theorems talk about which connection object a
message ended up mutating.
-/

/-! ## Rendezvous server model (server/index.js) -/

/-- One room entry of the server's registry:
rooms[roomId] holds a nullable publisher socket id and a set of
receiver socket ids (the JS Set is modelled as a duplicate-free list). -/
structure Room where
  publisher : Option String
  receivers : List String
deriving DecidableEq, Repr

/-- socket.data as written by the join handler: the assigned room and role. -/
structure SocketData where
  roomId : Option String
  role : Option String
deriving DecidableEq, Repr

/-- Message payloads travelling through the server.  blob stands for an
opaque client payload (sdp or candidate object) that the relay never
inspects. -/
inductive Payload where
  | nil
  | blob (data : String)
  | reqOffer (roomId : String) (receiverId : String)
  | recvLeft (receiverId : String)
deriving DecidableEq, Repr

/-- An emission performed by a server handler.
toRoom models socket.to(room).emit: delivered to every member of the
room except the sender.  toSocket models io.to(socketId).emit: a
directed message to one socket. -/
inductive Emit where
  | toRoom (room : String) (sender : String) (event : String) (payload : Payload)
  | toSocket (target : String) (event : String) (payload : Payload)
deriving DecidableEq, Repr

/-- The registry object rooms, an association list keyed by room id. -/
abbrev Registry := List (String × Room)

/-- rooms[roomId] read access. -/
def lookupRoom (rooms : Registry) (rid : String) : Option Room :=
  (rooms.find? (fun p => p.1 == rid)).map (fun p => p.2)

/-- rooms[roomId] = r write access (replaces any previous entry). -/
def setRoom (rooms : Registry) (rid : String) (r : Room) : Registry :=
  (rid, r) :: rooms.filter (fun p => !(p.1 == rid))

/-- delete rooms[roomId]. -/
def deleteRoom (rooms : Registry) (rid : String) : Registry :=
  rooms.filter (fun p => !(p.1 == rid))

/-- rooms[roomId] read access where the caller knows the entry exists. -/
def getRoomD (rooms : Registry) (rid : String) : Room :=
  (lookupRoom rooms rid).getD ⟨none, []⟩

/-- receivers.add(socketId): JS Set add, a no-op when already present. -/
def addReceiver (receivers : List String) (sid : String) : List String :=
  if sid ∈ receivers then receivers else receivers ++ [sid]

/-- The join handler of server/index.js: records socket.data, creates
the room entry on first join, then either installs the publisher
reference and broadcasts publisher-joined, or adds the receiver and,
when the room currently has a publisher, sends that publisher a
directed request-offer carrying the room and receiver ids. -/
def joinHandler (rooms : Registry) (sid rid role : String) :
    Registry × SocketData × List Emit :=
  let rooms1 := if (lookupRoom rooms rid).isNone then setRoom rooms rid ⟨none, []⟩ else rooms
  let d : SocketData := ⟨some rid, some role⟩
  if role = "publisher" then
    (setRoom rooms1 rid { getRoomD rooms1 rid with publisher := some sid }, d,
      [Emit.toRoom rid sid "publisher-joined" Payload.nil])
  else
    let r2 := { getRoomD rooms1 rid with
                receivers := addReceiver (getRoomD rooms1 rid).receivers sid }
    let fx : List Emit :=
      match r2.publisher with
      | some pub => [Emit.toSocket pub "request-offer" (Payload.reqOffer rid sid)]
      | none => []
    (setRoom rooms1 rid r2, d, fx)

/-- The room object after the disconnect handler's removal step:
a publisher that still holds the room's publisher slot is cleared,
a receiver is deleted from the set, anything else is untouched. -/
def leaveUpdate (room : Room) (sid : String) (role : Option String) : Room :=
  if role = some "publisher" ∧ room.publisher = some sid then
    { room with publisher := none }
  else if role = some "receiver" then
    { room with receivers := room.receivers.filter (fun x => !(x == sid)) }
  else room

/-- The broadcasts of the disconnect handler's removal step. -/
def leaveEmits (rid : String) (room : Room) (sid : String) (role : Option String) :
    List Emit :=
  if role = some "publisher" ∧ room.publisher = some sid then
    [Emit.toRoom rid sid "publisher-left" Payload.nil]
  else if role = some "receiver" then
    [Emit.toRoom rid sid "receiver-left" (Payload.recvLeft sid)]
  else []

/-- The disconnect handler of server/index.js: looks up the socket's
room, removes the departing member, broadcasts the corresponding left
notice, and deletes the room entry when it has neither publisher nor
receivers afterwards. -/
def disconnectHandler (rooms : Registry) (sid : String) (d : SocketData) :
    Registry × List Emit :=
  match d.roomId with
  | none => (rooms, [])
  | some rid =>
    match lookupRoom rooms rid with
    | none => (rooms, [])
    | some room =>
      let room2 := leaveUpdate room sid d.role
      let fx := leaveEmits rid room sid d.role
      if room2.publisher = none ∧ room2.receivers = [] then
        (deleteRoom rooms rid, fx)
      else
        (setRoom rooms rid room2, fx)

/-- The offer relay of server/index.js: when the sender has an assigned
room, forward the received payload value to that room excluding the
sender; when it has none, return with no emission and no state change. -/
def relayOffer (rooms : Registry) (sid : String) (d : SocketData) (p : Payload) :
    Registry × List Emit :=
  match d.roomId with
  | none => (rooms, [])
  | some rid => (rooms, [Emit.toRoom rid sid "offer" p])

/-- The answer relay of server/index.js, same shape as the offer relay. -/
def relayAnswer (rooms : Registry) (sid : String) (d : SocketData) (p : Payload) :
    Registry × List Emit :=
  match d.roomId with
  | none => (rooms, [])
  | some rid => (rooms, [Emit.toRoom rid sid "answer" p])

/-- The ice-candidate relay of server/index.js, same shape as the offer relay. -/
def relayIce (rooms : Registry) (sid : String) (d : SocketData) (p : Payload) :
    Registry × List Emit :=
  match d.roomId with
  | none => (rooms, [])
  | some rid => (rooms, [Emit.toRoom rid sid "ice-candidate" p])

/-- Registry invariant of the spec: every room entry present in the
registry has a publisher or at least one receiver. -/
def regInv (rooms : Registry) : Prop :=
  ∀ p ∈ rooms, p.2.publisher ≠ none ∨ p.2.receivers ≠ []

instance (rooms : Registry) : Decidable (regInv rooms) := by
  unfold regInv
  infer_instance

/-! ## Endpoint models -/

/-- One RTCPeerConnection object of an endpoint.  gen identifies the
object (successive connections get successive tags); localDesc and
remoteDesc are the descriptions set so far; applied records the remote
ICE candidates successfully added to this connection object. -/
structure PcSession where
  gen : Nat
  localDesc : Option String
  remoteDesc : Option String
  applied : List String
deriving DecidableEq, Repr

/-- A socket.emit performed by an endpoint. -/
inductive ClientEmit where
  | join (roomId : String) (role : String)
  | offer (roomId : String) (sdp : String)
  | answer (roomId : String) (sdp : String)
  | ice (roomId : String) (candidate : String)
deriving DecidableEq, Repr

/-- An observable action of an endpoint handler: a socket emission,
closing a transport (pc.close on the connection with the given gen), a
caught-and-logged error, or an uncaught exception thrown inside the
handler. -/
inductive ClientEffect where
  | emit (m : ClientEmit)
  | closedTransport (gen : Nat)
  | errorLogged
  | uncaughtError
deriving DecidableEq, Repr

/-- The offer text produced by createOffer on the connection tagged g
(the sdp content is opaque to everything in the core; the tag only
keeps distinct offers distinct). -/
def mkOffer (g : Nat) : String := String.append "offer-" (toString g)

/-! ### Publisher endpoint (publisher/main.js, auto-reconnect variant) -/

/-- The publisher's module-level state: room id, the started flag, the
presence of the captured localStream, the pendingNegotiate flag, the
current pc (null before the first negotiation), and the tag the next
created connection object will carry. -/
structure PubState where
  roomId : String
  started : Bool
  hasLocalStream : Bool
  pendingNegotiate : Bool
  pc : Option PcSession
  nextGen : Nat
deriving DecidableEq, Repr

/-- createPeerAndNegotiate: closes the previous pc if any, creates a
fresh RTCPeerConnection, attaches the local tracks, creates an offer,
sets it as local description and emits it for the room.  The
waitForOnline gate at its head resolves immediately when online; this
definition models the run once that gate has resolved. -/
def createPeerAndNegotiate (st : PubState) : PubState × List ClientEffect :=
  let closeFx : List ClientEffect :=
    match st.pc with
    | some s => [ClientEffect.closedTransport s.gen]
    | none => []
  let offer := mkOffer st.nextGen
  ({ st with pc := some ⟨st.nextGen, some offer, none, []⟩, nextGen := st.nextGen + 1 },
    closeFx ++ [ClientEffect.emit (ClientEmit.offer st.roomId offer)])

/-- The room guard of the request-offer handler, with JS truthiness:
the guard fires only when the payload's room id is present, non-empty
(truthy) and different from the publisher's room. -/
def roomMismatch (r : Option String) (roomId : String) : Bool :=
  match r with
  | none => false
  | some rr => rr != "" && rr != roomId

/-- The synchronous prefix of the request-offer handler of
publisher/main.js, up to its first await: the started, localStream,
room and pendingNegotiate guards, then setting pendingNegotiate.  The
returned boolean says whether the handler proceeds to negotiate; when
it is false the handler returned without doing anything. -/
def requestOfferBegin (st : PubState) (r : Option String) : PubState × Bool :=
  if !st.started || !st.hasLocalStream then (st, false)
  else if roomMismatch r st.roomId then (st, false)
  else if st.pendingNegotiate then (st, false)
  else ({ st with pendingNegotiate := true }, true)

/-- The continuation of the request-offer handler after its awaits:
run createPeerAndNegotiate, then reset pendingNegotiate in the finally
block. -/
def requestOfferResume (st : PubState) : PubState × List ClientEffect :=
  let res := createPeerAndNegotiate st
  ({ res.1 with pendingNegotiate := false }, res.2)

/-- A full, uninterleaved run of the request-offer handler
(prefix followed by its continuation when the guards pass). -/
def handleRequestOffer (st : PubState) (r : Option String) :
    PubState × List ClientEffect :=
  let b := requestOfferBegin st r
  if b.2 then requestOfferResume b.1 else (b.1, [])

/-- The publisher's answer handler: returns when pc is null, otherwise
tries setRemoteDescription on the current pc; the call succeeds exactly
in have-local-offer (local offer set, no remote description yet), and a
rejection is caught and logged. -/
def pubOnAnswer (st : PubState) (sdp : String) : PubState × List ClientEffect :=
  match st.pc with
  | none => (st, [])
  | some s =>
    if s.localDesc.isSome && s.remoteDesc.isNone then
      ({ st with pc := some { s with remoteDesc := some sdp } }, [])
    else (st, [ClientEffect.errorLogged])

/-- The publisher's ice-candidate handler: optional chaining makes a
null pc a silent no-op; otherwise addIceCandidate on the current pc,
which succeeds exactly when a remote description is set, a rejection
being caught and logged (the candidate is dropped). -/
def pubOnIce (st : PubState) (c : String) : PubState × List ClientEffect :=
  match st.pc with
  | none => (st, [])
  | some s =>
    if s.remoteDesc.isSome then
      ({ st with pc := some { s with applied := s.applied ++ [c] } }, [])
    else (st, [ClientEffect.errorLogged])

/-! ### Receiver endpoint (receiver/main.js) -/

/-- The receiver's module-level state: the roomId variable (initialised
to the string demo), the current pc (null until createPeer runs), the
pending waitForOnline continuation of the connection-state handler, and
the tag for the next created connection object. -/
structure RecvState where
  roomId : String
  pc : Option PcSession
  waitingOnline : Bool
  nextGen : Nat
deriving DecidableEq, Repr

/-- The state the receiver module starts in: roomId is the non-empty
default demo and no peer connection exists yet. -/
def initialRecvState : RecvState :=
  { roomId := "demo", pc := none, waitingOnline := false, nextGen := 0 }

/-- The answer text createAnswer produces for a given remote offer
(opaque to the core; the text only ties each answer to its offer). -/
def createAnswer (sdp : String) : String := String.append "answer-to-" sdp

/-- createPeer of receiver/main.js: closes the previous pc if any and
installs a fresh RTCPeerConnection with no descriptions. -/
def recvCreatePeer (st : RecvState) : RecvState × List ClientEffect :=
  let closeFx : List ClientEffect :=
    match st.pc with
    | some s => [ClientEffect.closedTransport s.gen]
    | none => []
  ({ st with pc := some ⟨st.nextGen, none, none, []⟩, nextGen := st.nextGen + 1 }, closeFx)

/-- joinAndAnswer of receiver/main.js: store the room id, create a
fresh peer connection, and emit join(roomId, receiver). -/
def joinAndAnswer (st : RecvState) (rid : String) : RecvState × List ClientEffect :=
  let st1 := { st with roomId := rid }
  let res := recvCreatePeer st1
  (res.1, res.2 ++ [ClientEffect.emit (ClientEmit.join rid "receiver")])

/-- The receiver's offer handler: setRemoteDescription(offer) on the
current pc, createAnswer, setLocalDescription, emit the answer.  When
pc is null the very first statement dereferences null and throws, and
nothing in the handler catches it: no state change, no answer. -/
def recvOnOffer (st : RecvState) (sdp : String) : RecvState × List ClientEffect :=
  match st.pc with
  | none => (st, [ClientEffect.uncaughtError])
  | some s =>
    let ans := createAnswer sdp
    ({ st with pc := some { s with remoteDesc := some sdp, localDesc := some ans } },
      [ClientEffect.emit (ClientEmit.answer st.roomId ans)])

/-- The receiver's ice-candidate handler: addIceCandidate on the
current pc inside try/catch.  A null pc throws inside the try (caught,
logged); with a pc, the add succeeds exactly when a remote description
is set, a rejection being caught and logged (candidate dropped). -/
def recvOnIce (st : RecvState) (c : String) : RecvState × List ClientEffect :=
  match st.pc with
  | none => (st, [ClientEffect.errorLogged])
  | some s =>
    if s.remoteDesc.isSome then
      ({ st with pc := some { s with applied := s.applied ++ [c] } }, [])
    else (st, [ClientEffect.errorLogged])

/-- The failed/disconnected arm of the receiver's
onconnectionstatechange handler: close the current pc, set it to null,
then wait for the network.  When already online the waitForOnline
promise resolves at once and the continuation emits join(roomId,
receiver); when offline, the continuation stays pending (waitingOnline)
until the online event.  No new peer connection is created anywhere on
this path. -/
def recvOnConnFailed (st : RecvState) (online : Bool) : RecvState × List ClientEffect :=
  match st.pc with
  | none => (st, [])
  | some s =>
    let st1 := { st with pc := none }
    if online then
      (st1, [ClientEffect.closedTransport s.gen,
             ClientEffect.emit (ClientEmit.join st1.roomId "receiver")])
    else
      ({ st1 with waitingOnline := true }, [ClientEffect.closedTransport s.gen])

/-- The online event resuming a pending waitForOnline of the
connection-state handler: emit join(roomId, receiver). -/
def recvOnOnline (st : RecvState) : RecvState × List ClientEffect :=
  if st.waitingOnline then
    ({ st with waitingOnline := false },
      [ClientEffect.emit (ClientEmit.join st.roomId "receiver")])
  else (st, [])

/-- The receiver's socket connect handler: when the roomId variable is
truthy (a non-empty string), emit join(roomId, receiver). -/
def recvOnConnect (st : RecvState) : List ClientEffect :=
  if st.roomId = "" then []
  else [ClientEffect.emit (ClientEmit.join st.roomId "receiver")]

/-! ## Registry lemmas -/

lemma mem_setRoom {rooms : Registry} {rid : String} {r : Room} {p : String × Room}
    (h : p ∈ setRoom rooms rid r) : p = (rid, r) ∨ (p ∈ rooms ∧ p.1 ≠ rid) := by
  rcases List.mem_cons.mp h with h1 | h1
  · exact Or.inl h1
  · right
    have h2 := List.mem_filter.mp h1
    refine ⟨h2.1, ?_⟩
    simpa using h2.2

lemma mem_deleteRoom {rooms : Registry} {rid : String} {p : String × Room}
    (h : p ∈ deleteRoom rooms rid) : p ∈ rooms ∧ p.1 ≠ rid := by
  have h2 := List.mem_filter.mp h
  refine ⟨h2.1, ?_⟩
  simpa using h2.2

lemma lookup_setRoom_self (rooms : Registry) (rid : String) (r : Room) :
    lookupRoom (setRoom rooms rid r) rid = some r := by
  unfold lookupRoom setRoom
  rw [List.find?_cons_of_pos]
  · rfl
  · simp

lemma find_delete_none (rooms : Registry) (rid : String) :
    List.find? (fun p => p.1 == rid) (deleteRoom rooms rid) = none := by
  induction rooms with
  | nil => rfl
  | cons a t ih =>
    by_cases h : a.1 = rid
    · have hb : (a.1 == rid) = true := by simp [h]
      have he : deleteRoom (a :: t) rid = deleteRoom t rid := by
        simp [deleteRoom, List.filter, hb]
      rw [he]
      exact ih
    · have hb : (a.1 == rid) = false := by simp [h]
      have he : deleteRoom (a :: t) rid = a :: deleteRoom t rid := by
        simp [deleteRoom, List.filter, hb]
      rw [he, List.find?_cons_of_neg]
      · exact ih
      · simp [h]

lemma lookup_deleteRoom (rooms : Registry) (rid : String) :
    lookupRoom (deleteRoom rooms rid) rid = none := by
  unfold lookupRoom
  rw [find_delete_none]
  rfl

lemma addReceiver_ne_nil (l : List String) (sid : String) : addReceiver l sid ≠ [] := by
  unfold addReceiver
  split
  · intro hnil
    rename_i hmem
    rw [hnil] at hmem
    exact absurd hmem (List.not_mem_nil sid)
  · simp

lemma mem_rooms1 {rooms : Registry} {rid : String} {p : String × Room}
    (h : p ∈ (if (lookupRoom rooms rid).isNone then setRoom rooms rid ⟨none, []⟩ else rooms))
    (hne : p.1 ≠ rid) : p ∈ rooms := by
  split at h
  · rcases mem_setRoom h with h1 | h1
    · rw [h1] at hne
      exact absurd rfl hne
    · exact h1.1
  · exact h

/-! ## Claim theorems: rendezvous server -/

/-- C2: for every receiver join processed by the server, a directed
request-offer carrying the room and receiver ids is sent to the room's
publisher exactly once when a publisher exists for that room, and no
request-offer is sent when the room has no publisher (or does not
exist yet). -/
theorem C2_thm (rooms : Registry) (sid rid role : String)
    (h : ¬ role = "publisher") :
    (∀ pub, (lookupRoom rooms rid).bind Room.publisher = some pub →
      (joinHandler rooms sid rid role).2.2
        = [Emit.toSocket pub "request-offer" (Payload.reqOffer rid sid)]) ∧
    ((lookupRoom rooms rid).bind Room.publisher = none →
      (joinHandler rooms sid rid role).2.2 = []) := by
  cases hc : lookupRoom rooms rid with
  | none =>
    constructor
    · intro pub hpub
      simp at hpub
    · intro _
      simp [joinHandler, hc, h, getRoomD, lookup_setRoom_self]
  | some room =>
    constructor
    · intro pub hpub
      simp at hpub
      simp [joinHandler, hc, h, getRoomD, hpub]
    · intro hn
      simp at hn
      simp [joinHandler, hc, h, getRoomD, hn]

/-- C2 witness: a receiver joining room demo, which already holds a
publisher socket pub1, makes the server send pub1 exactly one
directed request-offer. -/
theorem C2_witness :
    (joinHandler [("demo", ⟨some "pub1", []⟩)] "recv1" "demo" "receiver").2.2
      = [Emit.toSocket "pub1" "request-offer" (Payload.reqOffer "demo" "recv1")] := by
  have h := C2_thm [("demo", ⟨some "pub1", []⟩)] "recv1" "demo" "receiver" (by decide)
  exact h.1 "pub1" (by decide)

/-- C7: both registry mutations of the server preserve the invariant
that a room entry exists in the registry only with a publisher or at
least one receiver, and a disconnect whose removal step leaves the
room with neither deletes the entry immediately. -/
theorem C7_thm (rooms : Registry) (sid rid role : String)
    (sid2 : String) (d : SocketData) (hinv : regInv rooms) :
    regInv (joinHandler rooms sid rid role).1 ∧
    regInv (disconnectHandler rooms sid2 d).1 ∧
    (∀ rid2 room, d.roomId = some rid2 → lookupRoom rooms rid2 = some room →
      (leaveUpdate room sid2 d.role).publisher = none →
      (leaveUpdate room sid2 d.role).receivers = [] →
      lookupRoom (disconnectHandler rooms sid2 d).1 rid2 = none) := by
  refine ⟨?_, ?_, ?_⟩
  · intro p hp
    by_cases hrole : role = "publisher"
    · simp only [joinHandler, hrole, if_true] at hp
      rcases mem_setRoom hp with h1 | h1
      · rw [h1]
        simp
      · exact hinv p (mem_rooms1 h1.1 h1.2)
    · simp only [joinHandler, hrole, if_false] at hp
      rcases mem_setRoom hp with h1 | h1
      · rw [h1]
        right
        exact addReceiver_ne_nil _ _
      · exact hinv p (mem_rooms1 h1.1 h1.2)
  · intro p hp
    cases hd : d.roomId with
    | none =>
      simp only [disconnectHandler, hd] at hp
      exact hinv p hp
    | some rid2 =>
      cases hl : lookupRoom rooms rid2 with
      | none =>
        simp only [disconnectHandler, hd, hl] at hp
        exact hinv p hp
      | some room =>
        simp only [disconnectHandler, hd, hl] at hp
        split at hp
        · exact hinv p (mem_deleteRoom hp).1
        · rcases mem_setRoom hp with h1 | h1
          · rename_i hcond
            rw [h1]
            rcases not_and_or.mp hcond with h2 | h2
            · exact Or.inl h2
            · exact Or.inr h2
          · exact hinv p h1.1
  · intro rid2 room hd hlook hpub hrecv
    simp only [disconnectHandler, hd, hlook]
    rw [if_pos ⟨hpub, hrecv⟩]
    exact lookup_deleteRoom rooms rid2

/-- C7 witness: starting from a singleton registry containing room
demo with publisher pub1, a receiver join keeps the invariant and the
publisher's disconnect empties the room, whose entry is deleted. -/
theorem C7_witness :
    regInv (joinHandler [("demo", ⟨some "pub1", []⟩)] "recv1" "demo" "receiver").1 ∧
    lookupRoom (disconnectHandler [("demo", ⟨some "pub1", []⟩)] "pub1"
      ⟨some "demo", some "publisher"⟩).1 "demo" = none := by
  have h := C7_thm [("demo", ⟨some "pub1", []⟩)] "recv1" "demo" "receiver"
    "pub1" ⟨some "demo", some "publisher"⟩ (by decide)
  refine ⟨h.1, ?_⟩
  exact h.2.2 "demo" ⟨some "pub1", []⟩ rfl (by decide) (by decide) (by decide)

/-- C8: an offer, answer or ice-candidate received from a socket with
an assigned room is relayed with the payload value unchanged to that
room excluding the sender, and the registry is untouched. -/
theorem C8_thm (rooms : Registry) (sid : String) (d : SocketData)
    (rid : String) (p : Payload) (h : d.roomId = some rid) :
    relayOffer rooms sid d p = (rooms, [Emit.toRoom rid sid "offer" p]) ∧
    relayAnswer rooms sid d p = (rooms, [Emit.toRoom rid sid "answer" p]) ∧
    relayIce rooms sid d p = (rooms, [Emit.toRoom rid sid "ice-candidate" p]) := by
  unfold relayOffer relayAnswer relayIce
  rw [h]
  exact ⟨rfl, rfl, rfl⟩

/-- C8 witness: a concrete opaque payload from a socket assigned to
room demo is forwarded verbatim to that room, excluding the sender. -/
theorem C8_witness :
    relayOffer [] "s1" ⟨some "demo", some "publisher"⟩ (Payload.blob "sdp0")
      = ([], [Emit.toRoom "demo" "s1" "offer" (Payload.blob "sdp0")]) :=
  (C8_thm [] "s1" ⟨some "demo", some "publisher"⟩ "demo" (Payload.blob "sdp0") rfl).1

/-- C9: an offer, answer or ice-candidate received from a socket with
no assigned room is silently dropped: nothing is emitted anywhere, the
registry is unchanged, and the handler performs no action against the
sender's connection. -/
theorem C9_thm (rooms : Registry) (sid : String) (d : SocketData)
    (p : Payload) (h : d.roomId = none) :
    relayOffer rooms sid d p = (rooms, []) ∧
    relayAnswer rooms sid d p = (rooms, []) ∧
    relayIce rooms sid d p = (rooms, []) := by
  unfold relayOffer relayAnswer relayIce
  rw [h]
  exact ⟨rfl, rfl, rfl⟩

/-- C9 witness: a never-joined socket sending an offer produces no
relay and no registry change. -/
theorem C9_witness :
    relayOffer [("demo", ⟨some "pub1", []⟩)] "s9" ⟨none, none⟩ (Payload.blob "sdp9")
      = ([("demo", ⟨some "pub1", []⟩)], []) :=
  (C9_thm [("demo", ⟨some "pub1", []⟩)] "s9" ⟨none, none⟩ (Payload.blob "sdp9") rfl).1

/-! ## Claim theorems: receiver connect -/

/-- C10: the receiver module initialises its roomId variable to the
non-empty default demo, so on every signaling connect event, the very
first one included, the connect handler emits join(roomId, receiver);
in particular a fresh receiver page joins room demo as soon as the
signaling connection is established. -/
theorem C10_thm :
    initialRecvState.roomId = "demo" ∧
    recvOnConnect initialRecvState
      = [ClientEffect.emit (ClientEmit.join "demo" "receiver")] ∧
    (∀ st : RecvState, st.roomId ≠ "" →
      recvOnConnect st = [ClientEffect.emit (ClientEmit.join st.roomId "receiver")]) := by
  refine ⟨rfl, by decide, ?_⟩
  intro st hne
  unfold recvOnConnect
  rw [if_neg hne]

/-- C10 witness: the general connect rule instantiated at the initial
state, whose roomId demo is non-empty. -/
theorem C10_witness :
    recvOnConnect initialRecvState
      = [ClientEffect.emit (ClientEmit.join initialRecvState.roomId "receiver")] :=
  C10_thm.2.2 initialRecvState (by decide)

/-! ## Claim theorems: endpoints -/

/-- C1 counterexample: the publisher runs attempt N (gen 0, triggered
by a first receiver's request-offer) and, before that attempt's answer
arrives, attempt N+1 (gen 1, triggered by a second receiver).  The
generation-0 answer ans0 then arrives after attempt N+1 has started:
the answer handler applies it to attempt N+1's session (gen 1), whose
remote description changes — the stale message is not discarded and
does change attempt N+1's peer session state. -/
theorem C1_counterexample :
    (handleRequestOffer
        (handleRequestOffer ⟨"demo", true, true, false, none, 0⟩ (some "demo")).1
        (some "demo")).1.pc
      = some ⟨1, some "offer-1", none, []⟩ ∧
    (pubOnAnswer
        (handleRequestOffer
          (handleRequestOffer ⟨"demo", true, true, false, none, 0⟩ (some "demo")).1
          (some "demo")).1
        "ans0").1.pc
      = some ⟨1, some "offer-1", some "ans0", []⟩ ∧
    (pubOnAnswer
        (handleRequestOffer
          (handleRequestOffer ⟨"demo", true, true, false, none, 0⟩ (some "demo")).1
          (some "demo")).1
        "ans0").1
      ≠ (handleRequestOffer
          (handleRequestOffer ⟨"demo", true, true, false, none, 0⟩ (some "demo")).1
          (some "demo")).1 := by
  refine ⟨rfl, rfl, ?_⟩
  decide

/-- C1 (amended): negotiation messages carry no generation tag and are
never generation-checked; an incoming answer is applied to whatever
the current peer session is — changing its state — whenever that
session awaits an answer, and is a no-op only when no session exists;
an incoming ICE candidate is likewise applied to the current session
whenever its remote description is set. -/
theorem C1_thm :
    (∀ (st : PubState) (s : PcSession) (a : String),
        st.pc = some s → s.localDesc.isSome = true → s.remoteDesc = none →
        (pubOnAnswer st a).1.pc = some { s with remoteDesc := some a } ∧
        (pubOnAnswer st a).1.pc ≠ st.pc) ∧
    (∀ (st : PubState) (s : PcSession) (c : String),
        st.pc = some s → s.remoteDesc.isSome = true →
        (pubOnIce st c).1.pc = some { s with applied := s.applied ++ [c] }) ∧
    (∀ (st : PubState) (a : String), st.pc = none → pubOnAnswer st a = (st, [])) := by
  refine ⟨?_, ?_, ?_⟩
  · intro st s a hpc hl hr
    have hb : (s.localDesc.isSome && s.remoteDesc.isNone) = true := by
      rw [hl, hr]
      rfl
    constructor
    · simp [pubOnAnswer, hpc, hb]
    · simp only [pubOnAnswer, hpc, hb, if_true]
      intro hcontra
      have h2 : ({ s with remoteDesc := some a } : PcSession) = s :=
        Option.some.inj hcontra
      have h3 := congrArg PcSession.remoteDesc h2
      rw [hr] at h3
      simp at h3
  · intro st s c hpc hr
    simp [pubOnIce, hpc, hr]
  · intro st a hpc
    simp [pubOnAnswer, hpc]

/-- C1 witness: a publisher session awaiting an answer (gen 1, local
offer set, no remote description) has any arriving answer applied to
it. -/
theorem C1_witness :
    (pubOnAnswer ⟨"demo", true, true, false, some ⟨1, some "offer-1", none, []⟩, 2⟩
        "ans0").1.pc
      = some ⟨1, some "offer-1", some "ans0", []⟩ :=
  (C1_thm.1 ⟨"demo", true, true, false, some ⟨1, some "offer-1", none, []⟩, 2⟩
    ⟨1, some "offer-1", none, []⟩ "ans0" rfl rfl rfl).1

/-- C3: on a connected receiver whose transport reports failed while
the browser is online, the connection-state handler closes and drops
the current peer session and re-emits join, but constructs no new peer
session; when the re-requested fresh offer then arrives, the offer
handler dereferences the null pc and throws — no new session exists,
no answer is produced, and negotiation cannot restart.  This evaluates
the code at the failing input of the code_bug verdict. -/
theorem C3_thm :
    (recvOnConnFailed ⟨"demo", some ⟨0, some "answer-to-o0", some "o0", []⟩, false, 1⟩
        true).1
      = ⟨"demo", none, false, 1⟩ ∧
    (recvOnConnFailed ⟨"demo", some ⟨0, some "answer-to-o0", some "o0", []⟩, false, 1⟩
        true).2
      = [ClientEffect.closedTransport 0,
         ClientEffect.emit (ClientEmit.join "demo" "receiver")] ∧
    recvOnOffer ⟨"demo", none, false, 1⟩ "o1"
      = (⟨"demo", none, false, 1⟩, [ClientEffect.uncaughtError]) := by
  refine ⟨rfl, rfl, rfl⟩

/-- C4 counterexample: while the first request-offer's negotiation is
still in flight (its handler suspended at an await with
pendingNegotiate set), a second request-offer for the same room
arrives at a publisher that has started publishing; its handler runs
to completion producing no offer and no state change — the
pendingNegotiate guard drops it. -/
theorem C4_counterexample :
    (requestOfferBegin ⟨"demo", true, true, false, none, 0⟩ (some "demo")).1
      = ⟨"demo", true, true, true, none, 0⟩ ∧
    (⟨"demo", true, true, true, none, 0⟩ : PubState).started = true ∧
    handleRequestOffer ⟨"demo", true, true, true, none, 0⟩ (some "demo")
      = (⟨"demo", true, true, true, none, 0⟩, []) := by
  refine ⟨rfl, rfl, rfl⟩

/-- C4 (amended): a request-offer received for the publisher's room
while it has started publishing and no previously triggered
negotiation is still in flight — in particular while Connected or
AwaitingAnswer — closes any current transport, constructs a fresh peer
session carrying a fresh offer, and emits exactly that one offer to
the room; when a triggered negotiation is still in flight the request
is dropped. -/
theorem C4_thm (st : PubState) (r : Option String)
    (h1 : st.started = true) (h2 : st.hasLocalStream = true)
    (h3 : st.pendingNegotiate = false) (h4 : r = none ∨ r = some st.roomId) :
    handleRequestOffer st r =
      ({ st with pc := some ⟨st.nextGen, some (mkOffer st.nextGen), none, []⟩,
                 nextGen := st.nextGen + 1 },
        (match st.pc with
         | some s => [ClientEffect.closedTransport s.gen]
         | none => []) ++
          [ClientEffect.emit (ClientEmit.offer st.roomId (mkOffer st.nextGen))]) := by
  obtain ⟨rid0, started0, stream0, pending0, pc0, gen0⟩ := st
  simp only at h1 h2 h3 ⊢
  subst h1 h2 h3
  have hmm : roomMismatch r rid0 = false := by
    rcases h4 with h | h
    · rw [h]
      rfl
    · simp only at h
      rw [h]
      simp [roomMismatch]
  simp [handleRequestOffer, requestOfferBegin, requestOfferResume,
    createPeerAndNegotiate, hmm]

/-- C4 witness: a Connected publisher (gen 0 session with both
descriptions set) receiving a request-offer with no room field closes
the old transport and emits a fresh gen-1 offer. -/
theorem C4_witness :
    handleRequestOffer
        ⟨"demo", true, true, false, some ⟨0, some "offer-0", some "ans0", []⟩, 1⟩ none
      = (⟨"demo", true, true, false, some ⟨1, some "offer-1", none, []⟩, 2⟩,
         [ClientEffect.closedTransport 0,
          ClientEffect.emit (ClientEmit.offer "demo" "offer-1")]) :=
  C4_thm ⟨"demo", true, true, false, some ⟨0, some "offer-0", some "ans0", []⟩, 1⟩
    none rfl rfl rfl (Or.inl rfl)

/-- C5 counterexample: a Connected receiver (gen 0 session holding
descriptions for offer o0 and an applied candidate c0) receives a new
offer o1.  The handler applies o1 in place to the same gen-0 session
and answers on it: the session keeps its generation and applied
candidates, and no transport close happens — the current transport is
not discarded and no fresh one is started. -/
theorem C5_counterexample :
    recvOnOffer ⟨"demo", some ⟨0, some "answer-to-o0", some "o0", ["c0"]⟩, false, 1⟩ "o1"
      = (⟨"demo", some ⟨0, some "answer-to-o1", some "o1", ["c0"]⟩, false, 1⟩,
         [ClientEffect.emit (ClientEmit.answer "demo" "answer-to-o1")]) ∧
    ClientEffect.closedTransport 0
      ∉ (recvOnOffer ⟨"demo", some ⟨0, some "answer-to-o0", some "o0", ["c0"]⟩,
          false, 1⟩ "o1").2 := by
  refine ⟨rfl, ?_⟩
  decide

/-- C5 (amended): an offer received while a peer session exists — in
particular while already Connected — is applied in place to the live
transport: the handler sets it as the current pc's remote description,
creates and sends an answer on that same pc, and the session keeps its
generation; the current transport is never discarded and no fresh one
is started by this handler. -/
theorem C5_thm (st : RecvState) (s : PcSession) (sdp : String)
    (h : st.pc = some s) :
    recvOnOffer st sdp =
      ({ st with
          pc := some { s with remoteDesc := some sdp, localDesc := some (createAnswer sdp) } },
        [ClientEffect.emit (ClientEmit.answer st.roomId (createAnswer sdp))]) ∧
    ((recvOnOffer st sdp).1.pc.map PcSession.gen = some s.gen) := by
  constructor
  · simp [recvOnOffer, h]
  · simp [recvOnOffer, h]

/-- C5 witness: the amended rule evaluated on a Connected gen-0
session receiving offer o1. -/
theorem C5_witness :
    recvOnOffer ⟨"demo", some ⟨0, some "answer-to-o0", some "o0", []⟩, false, 1⟩ "o1"
      = (⟨"demo", some ⟨0, some "answer-to-o1", some "o1", []⟩, false, 1⟩,
         [ClientEffect.emit (ClientEmit.answer "demo" "answer-to-o1")]) :=
  (C5_thm ⟨"demo", some ⟨0, some "answer-to-o0", some "o0", []⟩, false, 1⟩
    ⟨0, some "answer-to-o0", some "o0", []⟩ "o1" rfl).1

/-- C6 counterexample: a receiver session (gen 1) with no remote
description yet receives candidate cand0: the add fails, the error is
caught and logged, and the state is unchanged — nothing buffers the
candidate.  When the remote description is then set by an offer, the
session's applied-candidate list is still empty: the early candidate
was lost, never applied. -/
theorem C6_counterexample :
    recvOnIce ⟨"demo", some ⟨1, none, none, []⟩, false, 2⟩ "cand0"
      = (⟨"demo", some ⟨1, none, none, []⟩, false, 2⟩, [ClientEffect.errorLogged]) ∧
    (recvOnOffer (recvOnIce ⟨"demo", some ⟨1, none, none, []⟩, false, 2⟩ "cand0").1
        "o0").1.pc
      = some ⟨1, some "answer-to-o0", some "o0", []⟩ := by
  refine ⟨rfl, rfl⟩

/-- C6 (amended): in both roles a remote ICE candidate is applied
immediately to the current session when a remote description is set;
when none is set the add fails, the failure is caught and logged, and
the candidate is dropped — there is no buffer and such a candidate is
never applied later. -/
theorem C6_thm :
    (∀ (st : RecvState) (s : PcSession) (c : String), st.pc = some s →
        (s.remoteDesc.isSome = true →
          recvOnIce st c
            = ({ st with pc := some { s with applied := s.applied ++ [c] } }, [])) ∧
        (s.remoteDesc = none →
          recvOnIce st c = (st, [ClientEffect.errorLogged]))) ∧
    (∀ (st : PubState) (s : PcSession) (c : String), st.pc = some s →
        (s.remoteDesc.isSome = true →
          pubOnIce st c
            = ({ st with pc := some { s with applied := s.applied ++ [c] } }, [])) ∧
        (s.remoteDesc = none →
          pubOnIce st c = (st, [ClientEffect.errorLogged]))) := by
  constructor
  · intro st s c hpc
    constructor
    · intro hr
      simp [recvOnIce, hpc, hr]
    · intro hr
      simp [recvOnIce, hpc, hr]
  · intro st s c hpc
    constructor
    · intro hr
      simp [pubOnIce, hpc, hr]
    · intro hr
      simp [pubOnIce, hpc, hr]

/-- C6 witness: a receiver session with remote description o0 applies
an arriving candidate at once. -/
theorem C6_witness :
    recvOnIce ⟨"demo", some ⟨0, some "answer-to-o0", some "o0", []⟩, false, 1⟩ "cand1"
      = (⟨"demo", some ⟨0, some "answer-to-o0", some "o0", ["cand1"]⟩, false, 1⟩, []) :=
  (C6_thm.1 ⟨"demo", some ⟨0, some "answer-to-o0", some "o0", []⟩, false, 1⟩
    ⟨0, some "answer-to-o0", some "o0", []⟩ "cand1" rfl).1 rfl
